import Mathlib

/-!
Shallow embedding of the persistence and authentication layer of the
Finora budget manager (`src/streamlit_app.py`).

The SQLite tables are modelled as Lean lists of rows kept in `rowid`
order (SQLite returns rows of an unordered `SELECT` in `rowid` order,
and every insert here allocates `max rowid + 1`, so the list order is
both rowid order and insertion order).  Monetary amounts (`REAL` in the
schema) are modelled as rationals; every value occurring in the claims
is integral, so no rounding behaviour is involved.
-/

namespace Finora

/-- A row of the `transactions` table:
`(user_id INTEGER, date TEXT, type TEXT, category TEXT, amount REAL, notes TEXT)`.
The implicit SQLite `rowid` is made explicit because `update_transaction`
and `delete_transaction` address rows by it. -/
structure TransRow where
  rowid : Nat
  user_id : Nat
  date : String
  ttype : String
  category : String
  amount : ℚ
  notes : String
deriving Repr, DecidableEq

/-- The `transactions` table, in `rowid` order. -/
abbrev TransTable := List TransRow

/-- SQLite rowid allocation for a table without `AUTOINCREMENT`:
the next rowid is one more than the largest rowid currently in use. -/
def nextRowid (db : TransTable) : Nat :=
  (db.map TransRow.rowid).foldr max 0 + 1

/-- Source `save_transaction` (lines 168-174):
`INSERT INTO transactions (user_id, date, type, category, amount, notes) VALUES (?,?,?,?,?,?)`. -/
def save_transaction (db : TransTable) (user_id : Nat) (date t_type category : String)
    (amount : ℚ) (notes : String) : TransTable :=
  db ++ [⟨nextRowid db, user_id, date, t_type, category, amount, notes⟩]

/-- Source `load_transactions` (lines 155-159):
`SELECT * FROM transactions WHERE user_id = ?` (no ORDER BY, hence rowid order). -/
def load_transactions (db : TransTable) (user_id : Nat) : List TransRow :=
  db.filter (fun r => r.user_id == user_id)

/-- Source `update_transaction` (lines 184-190):
`UPDATE transactions SET date=?, type=?, category=?, amount=?, notes=?
 WHERE user_id = ? AND rowid = ?` with `rowid = index + 1`. -/
def update_transaction (db : TransTable) (user_id index : Nat)
    (date t_type category : String) (amount : ℚ) (notes : String) : TransTable :=
  db.map (fun r =>
    if r.user_id == user_id && r.rowid == index + 1 then
      { r with date := date, ttype := t_type, category := category,
               amount := amount, notes := notes }
    else r)

/-- Source `delete_transaction` (lines 192-197):
`DELETE FROM transactions WHERE user_id = ? AND rowid = ?` with `rowid = index + 1`. -/
def delete_transaction (db : TransTable) (user_id index : Nat) : TransTable :=
  db.filter (fun r => !(r.user_id == user_id && r.rowid == index + 1))

/-- The payload of a transaction row: everything the caller supplied
(i.e. the row minus the store-assigned rowid). -/
structure TransPayload where
  user_id : Nat
  date : String
  ttype : String
  category : String
  amount : ℚ
  notes : String
deriving Repr, DecidableEq

/-- Forget the rowid of a stored row. -/
def TransRow.payload (r : TransRow) : TransPayload :=
  ⟨r.user_id, r.date, r.ttype, r.category, r.amount, r.notes⟩

/-- One `save_transaction` call's arguments for a fixed user. -/
structure TransInput where
  date : String
  ttype : String
  category : String
  amount : ℚ
  notes : String
deriving Repr, DecidableEq

/-- The payload that `save_transaction user_id` stores for a given input. -/
def TransInput.payload (user_id : Nat) (i : TransInput) : TransPayload :=
  ⟨user_id, i.date, i.ttype, i.category, i.amount, i.notes⟩

/-- Run a sequence of `save_transaction` calls for one user. -/
def saveAll (db : TransTable) (user_id : Nat) : List TransInput → TransTable
  | [] => db
  | i :: is =>
      saveAll (save_transaction db user_id i.date i.ttype i.category i.amount i.notes) user_id is

/-! ## SHA-256 (`hashlib.sha256(...).hexdigest()`)

`hash_password` (line 92-93) is `hashlib.sha256(password.encode()).hexdigest()`.
`str.encode()` is UTF-8 encoding; the digest is rendered as 64 lowercase hex
characters.  The full FIPS 180-4 SHA-256 is embedded below over `Nat`, with
32-bit wraparound written as `% 2^32`.  Bytes and words are `Nat`s below 256
resp. 2^32. -/

/-- Truncate to a 32-bit word. -/
def w32 (x : Nat) : Nat := x % 4294967296

/-- Rotate a 32-bit word right by `n`. -/
def rotr (n x : Nat) : Nat := w32 ((x >>> n) ||| (x <<< (32 - n)))

/-- SHA-256 choice function; xor with `2^32 - 1 = 4294967295` is the 32-bit
complement. -/
def ch (e f g : Nat) : Nat :=
  Nat.xor (Nat.land e f) (Nat.land (Nat.xor e 4294967295) g)

/-- SHA-256 majority function. -/
def maj (a b c : Nat) : Nat :=
  Nat.xor (Nat.xor (Nat.land a b) (Nat.land a c)) (Nat.land b c)

/-- SHA-256 Σ₀. -/
def bigSigma0 (a : Nat) : Nat := Nat.xor (Nat.xor (rotr 2 a) (rotr 13 a)) (rotr 22 a)

/-- SHA-256 Σ₁. -/
def bigSigma1 (e : Nat) : Nat := Nat.xor (Nat.xor (rotr 6 e) (rotr 11 e)) (rotr 25 e)

/-- SHA-256 σ₀. -/
def smallSigma0 (w : Nat) : Nat := Nat.xor (Nat.xor (rotr 7 w) (rotr 18 w)) (w / 8)

/-- SHA-256 σ₁. -/
def smallSigma1 (w : Nat) : Nat := Nat.xor (Nat.xor (rotr 17 w) (rotr 19 w)) (w / 1024)

/-- The 64 SHA-256 round constants, in decimal. -/
def K : List Nat :=
  [1116352408, 1899447441, 3049323471, 3921009573, 961987163,
   1508970993, 2453635748, 2870763221, 3624381080, 310598401,
   607225278, 1426881987, 1925078388, 2162078206, 2614888103,
   3248222580, 3835390401, 4022224774, 264347078, 604807628,
   770255983, 1249150122, 1555081692, 1996064986, 2554220882,
   2821834349, 2952996808, 3210313671, 3336571891, 3584528711,
   113926993, 338241895, 666307205, 773529912, 1294757372,
   1396182291, 1695183700, 1986661051, 2177026350, 2456956037,
   2730485921, 2820302411, 3259730800, 3345764771, 3516065817,
   3600352804, 4094571909, 275423344, 430227734, 506948616,
   659060556, 883997877, 958139571, 1322822218, 1537002063,
   1747873779, 1955562222, 2024104815, 2227730452, 2361852424,
   2428436474, 2756734187, 3204031479, 3329325298]

/-- The eight 32-bit working variables of SHA-256. -/
structure SHAState where
  a : Nat
  b : Nat
  c : Nat
  d : Nat
  e : Nat
  f : Nat
  g : Nat
  h : Nat
deriving Repr, DecidableEq

/-- The SHA-256 initial hash value, in decimal. -/
def initState : SHAState :=
  ⟨1779033703, 3144134277, 1013904242, 2773480762,
   1359893119, 2600822924, 528734635, 1541459225⟩

/-- One SHA-256 round. -/
def shaRound (st : SHAState) (ki wi : Nat) : SHAState :=
  let t1 := w32 (st.h + bigSigma1 st.e + ch st.e st.f st.g + ki + wi)
  let t2 := w32 (bigSigma0 st.a + maj st.a st.b st.c)
  ⟨w32 (t1 + t2), st.a, st.b, st.c, w32 (st.d + t1), st.e, st.f, st.g⟩

/-- Extend the 16 words of a block to the 64-word message schedule. -/
def extendSchedule (ws : List Nat) : List Nat :=
  (List.range 48).foldl (fun acc _ =>
    acc ++ [w32 (acc.getD (acc.length - 16) 0 + smallSigma0 (acc.getD (acc.length - 15) 0)
                  + acc.getD (acc.length - 7) 0 + smallSigma1 (acc.getD (acc.length - 2) 0))]) ws

/-- The SHA-256 compression function on one 16-word block. -/
def compress (st : SHAState) (block : List Nat) : SHAState :=
  let ws := extendSchedule block
  let fin := (K.zip ws).foldl (fun s kw => shaRound s kw.1 kw.2) st
  ⟨w32 (st.a + fin.a), w32 (st.b + fin.b), w32 (st.c + fin.c), w32 (st.d + fin.d),
   w32 (st.e + fin.e), w32 (st.f + fin.f), w32 (st.g + fin.g), w32 (st.h + fin.h)⟩

/-- A 64-bit value as 8 big-endian bytes. -/
def beBytes8 (n : Nat) : List Nat :=
  [n / 72057594037927936 % 256, n / 281474976710656 % 256, n / 1099511627776 % 256,
   n / 4294967296 % 256, n / 16777216 % 256, n / 65536 % 256, n / 256 % 256, n % 256]

/-- SHA-256 padding: append `0x80`, zero bytes to 56 mod 64, then the
64-bit big-endian bit length. -/
def padBytes (msg : List Nat) : List Nat :=
  msg ++ [128] ++ List.replicate ((119 - msg.length % 64) % 64) 0 ++ beBytes8 (msg.length * 8)

/-- Group bytes into big-endian 32-bit words. -/
def bytesToWords : List Nat → List Nat
  | b0 :: b1 :: b2 :: b3 :: rest => (((b0 * 256 + b1) * 256 + b2) * 256 + b3) :: bytesToWords rest
  | _ => []

/-- SHA-256 of a byte sequence: pad, then compress the 64-byte blocks in order. -/
def sha256Words (msg : List Nat) : SHAState :=
  let padded := padBytes msg
  (List.range (padded.length / 64)).foldl
    (fun st i => compress st (bytesToWords ((padded.drop (64 * i)).take 64))) initState

/-- A 32-bit word as 4 big-endian bytes. -/
def wordBytes (w : Nat) : List Nat := [w / 16777216 % 256, w / 65536 % 256, w / 256 % 256, w % 256]

/-- The 32-byte SHA-256 digest. -/
def sha256Bytes (msg : List Nat) : List Nat :=
  let st := sha256Words msg
  wordBytes st.a ++ wordBytes st.b ++ wordBytes st.c ++ wordBytes st.d ++
  wordBytes st.e ++ wordBytes st.f ++ wordBytes st.g ++ wordBytes st.h

/-- UTF-8 encoding of one character (`str.encode()`). -/
def charUtf8 (c : Char) : List Nat :=
  let n := c.toNat
  if n < 128 then [n]
  else if n < 2048 then [192 ||| (n >>> 6), 128 ||| (n &&& 63)]
  else if n < 65536 then [224 ||| (n >>> 12), 128 ||| ((n >>> 6) &&& 63), 128 ||| (n &&& 63)]
  else [240 ||| (n >>> 18), 128 ||| ((n >>> 12) &&& 63), 128 ||| ((n >>> 6) &&& 63), 128 ||| (n &&& 63)]

/-- UTF-8 encoding of a string (`password.encode()`). -/
def utf8Bytes (s : String) : List Nat := s.data.flatMap charUtf8

/-- The sixteen lowercase hex digits, as used by `hexdigest()`. -/
def hexDigits : List Char := "0123456789abcdef".data

/-- Hex digit character for a value below 16. -/
def hexDigitChar (n : Nat) : Char := hexDigits.getD n '0'

/-- Two lowercase hex characters for one byte. -/
def byteHex (b : Nat) : List Char := [hexDigitChar (b / 16), hexDigitChar (b % 16)]

/-- Source `hash_password` (lines 92-93):
`hashlib.sha256(password.encode()).hexdigest()` — the 64-character lowercase
hex rendering of the SHA-256 digest of the UTF-8 encoded password. -/
def hash_password (password : String) : String :=
  ⟨(sha256Bytes (utf8Bytes password)).flatMap byteHex⟩

/-! ## Credential store -/

/-- A row of the `users` table:
`(username TEXT, password TEXT, user_id INTEGER PRIMARY KEY AUTOINCREMENT)`.
Note the schema (lines 80-81) declares **no UNIQUE constraint on `username`**.
The `password` column stores the output of `hash_password`. -/
structure UserRow where
  username : String
  password : String
  user_id : Nat
deriving Repr, DecidableEq

/-- The `users` table, in insertion order. -/
abbrev UsersTable := List UserRow

/-- Source `register_user` (lines 104-115):
`INSERT INTO users (username, password) VALUES (?, hash_password(password))`,
returning `True` on success and `False` on `sqlite3.IntegrityError`.
Since the schema puts no constraint on `username` or `password` (the primary
key is auto-assigned), the insert can never raise `IntegrityError`, so the
translation always succeeds.  `AUTOINCREMENT` user ids are modelled as
`length + 1`: users are never deleted, so ids are `1, 2, 3, …`. -/
def register_user (db : UsersTable) (username password : String) : UsersTable × Bool :=
  (db ++ [⟨username, hash_password password, db.length + 1⟩], true)

/-- Source `check_user` (lines 95-102):
`SELECT user_id FROM users WHERE username = ? AND password = hash_password(?)`
with `fetchone()`: the first matching row's user id, or `None`. -/
def check_user (db : UsersTable) (username password : String) : Option Nat :=
  (db.find? (fun r => r.username == username && r.password == hash_password password)).map
    UserRow.user_id

/-- Run a sequence of `register_user` calls (username, password pairs). -/
def registerAll (db : UsersTable) : List (String × String) → UsersTable
  | [] => db
  | (u, p) :: rest => registerAll (register_user db u p).1 rest

/-! ## Goals store and form handlers -/

/-- A row of the `goals` table:
`(user_id INTEGER, goal TEXT, target_amount REAL, saved_amount REAL, deadline TEXT)`. -/
structure GoalRow where
  rowid : Nat
  user_id : Nat
  goal : String
  target_amount : ℚ
  saved_amount : ℚ
  deadline : String
deriving Repr, DecidableEq

/-- The `goals` table, in rowid order. -/
abbrev GoalTable := List GoalRow

/-- Source `save_goal` (lines 176-182):
`INSERT INTO goals (user_id, goal, target_amount, saved_amount, deadline) VALUES (?,?,?,?,?)`. -/
def save_goal (db : GoalTable) (user_id : Nat) (goal : String) (target saved : ℚ)
    (deadline : String) : GoalTable :=
  db ++ [⟨(db.map GoalRow.rowid).foldr max 0 + 1, user_id, goal, target, saved, deadline⟩]

/-- The Goals page `goal_form` submit handler (lines 316-323):
`if not goal_name: error` / `elif target <= saved: error` / `else: save_goal`.
Returns the new table and the inline error message, if any. -/
def goal_form_submit (db : GoalTable) (user_id : Nat) (goal_name : String) (target saved : ℚ)
    (deadline : String) : GoalTable × Option String :=
  if goal_name = "" then (db, some "Goal name is required.")
  else if target ≤ saved then (db, some "Target amount must be greater than saved amount.")
  else (save_goal db user_id goal_name target saved deadline, none)

/-- The Transactions page `transaction_form` submit handler (lines 273-278):
`if amount <= 0: error` / `else: save_transaction`. -/
def transaction_form_submit (db : TransTable) (user_id : Nat) (date t_type category : String)
    (amount : ℚ) (notes : String) : TransTable × Option String :=
  if amount ≤ 0 then (db, some "Amount must be positive.")
  else (save_transaction db user_id date t_type category amount notes, none)

/-! ## Reporting view -/

/-- Dashboard (line 230): `df[df['type'] == 'Income']['amount'].sum()`. -/
def income_total (rows : List TransRow) : ℚ :=
  ((rows.filter (fun r => r.ttype == "Income")).map TransRow.amount).sum

/-- Dashboard (line 231): `df[df['type'] == 'Expense']['amount'].sum()`. -/
def expense_total (rows : List TransRow) : ℚ :=
  ((rows.filter (fun r => r.ttype == "Expense")).map TransRow.amount).sum

/-- Dashboard (line 232): `savings = income - expense`. -/
def net_savings (rows : List TransRow) : ℚ := income_total rows - expense_total rows

/-- The distinct values of a key list (`groupby` keys; key order immaterial here). -/
def distinctKeys : List String → List String
  | [] => []
  | c :: cs => if c ∈ cs then distinctKeys cs else c :: distinctKeys cs

/-- Reports page (lines 338-340):
`df[df['type']=='Expense'].groupby('category')['amount'].sum()` —
one `(category, sum)` pair per distinct expense category. -/
def category_summary (rows : List TransRow) : List (String × ℚ) :=
  let exp := rows.filter (fun r => r.ttype == "Expense")
  (distinctKeys (exp.map TransRow.category)).map
    (fun c => (c, ((exp.filter (fun r => r.category == c)).map TransRow.amount).sum))

/-! ## Theorems -/

/-- Claim C1: The spec claims registering the same username twice has the second
call return `already_exists` (`register_user` returns `False`) with exactly one
row stored for that username.  The schema has no UNIQUE constraint on
`username`, so the insert never raises `sqlite3.IntegrityError`: for every
username and pair of passwords, both calls on a fresh store return `True` and
the store afterwards holds **two** rows for that username. -/
theorem c1_duplicate_username_not_rejected (u p1 p2 : String) :
    (register_user [] u p1).2 = true ∧
    (register_user (register_user [] u p1).1 u p2).2 = true ∧
    ((register_user (register_user [] u p1).1 u p2).1.filter
      (fun r => r.username == u)).length = 2 := by
  simp [register_user]

/-- Concrete transactions store for C2: user 1 appended two rows to a fresh
table (rowids 1 and 2). -/
def c2db : TransTable :=
  [⟨1, 1, "2024-01-01", "Expense", "Food", 10, "a"⟩,
   ⟨2, 1, "2024-01-02", "Expense", "Rent", 20, "b"⟩]

/-- Claim C2: The spec claims `delete_transaction user i` removes exactly the
`i`-th record of that user's list.  The code deletes by global sqlite
`rowid = i + 1`, which coincides with the user's ordinal only while the user's
rows occupy rowids `1..n`.  Concretely: after user 1 appends two rows and
deletes ordinal 0, the survivor (ordinal 0 of the new list, rowid 2) cannot be
deleted any more — a second `delete_transaction user 0` targets the free
rowid 1 and removes nothing. -/
theorem c2_delete_targets_rowid_not_ordinal :
    c2db = saveAll [] 1 [⟨"2024-01-01", "Expense", "Food", 10, "a"⟩,
                         ⟨"2024-01-02", "Expense", "Rent", 20, "b"⟩] ∧
    load_transactions (delete_transaction c2db 1 0) 1 =
      [⟨2, 1, "2024-01-02", "Expense", "Rent", 20, "b"⟩] ∧
    delete_transaction (delete_transaction c2db 1 0) 1 0 = delete_transaction c2db 1 0 := by
  refine ⟨rfl, rfl, rfl⟩

/-- Concrete transactions store for C3: user 2 appended one row (rowid 1),
then user 1 appended two rows (rowids 2 and 3). -/
def c3db : TransTable :=
  [⟨1, 2, "2024-01-01", "Expense", "Food", 5, "x"⟩,
   ⟨2, 1, "2024-01-02", "Expense", "Rent", 10, "a"⟩,
   ⟨3, 1, "2024-01-03", "Expense", "Food", 20, "b"⟩]

/-- Claim C3: The spec claims `update_transaction user i new_fields` overwrites
exactly the row at 0-based ordinal `i` of that user's record set.  The code
updates by global sqlite `rowid = i + 1`.  Concretely: with user 2 holding
rowid 1 and user 1 holding rowids 2 and 3, user 1's ordinals are
`0 ↦ rowid 2, 1 ↦ rowid 3`; updating ordinal 1 overwrites the row at
ordinal **0** (rowid 2) and leaves the row at ordinal 1 (rowid 3) unchanged. -/
theorem c3_update_targets_rowid_not_ordinal :
    load_transactions c3db 1 =
      [⟨2, 1, "2024-01-02", "Expense", "Rent", 10, "a"⟩,
       ⟨3, 1, "2024-01-03", "Expense", "Food", 20, "b"⟩] ∧
    update_transaction c3db 1 1 "2024-02-09" "Income" "Salary" 99 "n" =
      [⟨1, 2, "2024-01-01", "Expense", "Food", 5, "x"⟩,
       ⟨2, 1, "2024-02-09", "Income", "Salary", 99, "n"⟩,
       ⟨3, 1, "2024-01-03", "Expense", "Food", 20, "b"⟩] := by
  refine ⟨rfl, rfl⟩

/-- Claim C7: A goal submission with an empty name or with
`target_amount ≤ saved_amount` is rejected with a validation error and the
goals store is left unchanged (no partial write). -/
theorem c7_goal_validation_rejects (db : GoalTable) (u : Nat) (goal_name : String)
    (target saved : ℚ) (deadline : String) (h : goal_name = "" ∨ target ≤ saved) :
    (goal_form_submit db u goal_name target saved deadline).1 = db ∧
    (goal_form_submit db u goal_name target saved deadline).2.isSome = true := by
  rcases h with h | h
  · simp [goal_form_submit, h]
  · by_cases hn : goal_name = "" <;> simp [goal_form_submit, hn, h]

/-- Witness for C7 at a concrete rejected submission (`target 1 ≤ saved 2`). -/
theorem c7_goal_validation_rejects_witness :
    (goal_form_submit [] 1 "car" 1 2 "2025-01-01").1 = [] ∧
    (goal_form_submit [] 1 "car" 1 2 "2025-01-01").2.isSome = true :=
  c7_goal_validation_rejects [] 1 "car" 1 2 "2025-01-01" (Or.inr (by norm_num))

/-- Claim C8: A transaction submission with `amount ≤ 0` is aborted with a
validation error and the transactions store is unchanged; with `amount > 0`
the record is appended to the store. -/
theorem c8_transaction_validation (db : TransTable) (u : Nat) (date t_type category : String)
    (amount : ℚ) (notes : String) :
    (amount ≤ 0 →
      transaction_form_submit db u date t_type category amount notes =
        (db, some "Amount must be positive.")) ∧
    (0 < amount →
      transaction_form_submit db u date t_type category amount notes =
        (db ++ [⟨nextRowid db, u, date, t_type, category, amount, notes⟩], none)) := by
  constructor <;> intro h
  · simp [transaction_form_submit, h]
  · simp [transaction_form_submit, save_transaction, not_le.mpr h]

/-- Witness for C8 at a rejected (`amount = -1`) and an accepted
(`amount = 5`) submission. -/
theorem c8_transaction_validation_witness :
    transaction_form_submit [] 1 "2024-01-01" "Expense" "Food" (-1) "n" =
      ([], some "Amount must be positive.") ∧
    transaction_form_submit [] 1 "2024-01-01" "Expense" "Food" 5 "n" =
      ([] ++ [⟨nextRowid [], 1, "2024-01-01", "Expense", "Food", 5, "n"⟩], none) :=
  ⟨(c8_transaction_validation [] 1 "2024-01-01" "Expense" "Food" (-1) "n").1 (by norm_num),
   (c8_transaction_validation [] 1 "2024-01-01" "Expense" "Food" 5 "n").2 (by norm_num)⟩

/-- Appending a row for user `u` extends that user's listing by exactly
that row. -/
theorem load_save_transaction (db : TransTable) (u : Nat) (d t c : String) (a : ℚ) (n : String) :
    load_transactions (save_transaction db u d t c a n) u =
      load_transactions db u ++ [⟨nextRowid db, u, d, t, c, a, n⟩] := by
  simp [load_transactions, save_transaction, List.filter_append]

/-- A run of `save_transaction` calls appends exactly the corresponding
payloads, in order, to the user's listing. -/
theorem load_saveAll (u : Nat) (ins : List TransInput) :
    ∀ db : TransTable,
      (load_transactions (saveAll db u ins) u).map TransRow.payload =
        (load_transactions db u).map TransRow.payload ++ ins.map (TransInput.payload u) := by
  induction ins with
  | nil => intro db; simp [saveAll]
  | cons i is ih =>
      intro db
      rw [saveAll, ih, load_save_transaction]
      simp [TransRow.payload, TransInput.payload]

/-- Claim C4: Starting from a store holding no rows for user `u`, any sequence
of `save_transaction` calls for `u` followed by `load_transactions u` returns
exactly the appended records (up to the store-assigned rowid), in insertion
order. -/
theorem c4_append_list_round_trip (db : TransTable) (u : Nat) (ins : List TransInput)
    (h : load_transactions db u = []) :
    (load_transactions (saveAll db u ins) u).map TransRow.payload =
      ins.map (TransInput.payload u) := by
  rw [load_saveAll, h]
  simp

/-- Witness for C4 on a fresh store and two concrete inserts. -/
theorem c4_append_list_round_trip_witness :
    (load_transactions (saveAll [] 7 [⟨"2024-01-01", "Income", "Salary", 1000, "x"⟩,
                                      ⟨"2024-01-02", "Expense", "Food", 40, "y"⟩]) 7).map
        TransRow.payload =
      [⟨"2024-01-01", "Income", "Salary", 1000, "x"⟩,
       ⟨"2024-01-02", "Expense", "Food", 40, "y"⟩].map (TransInput.payload 7) :=
  c4_append_list_round_trip [] 7 _ rfl

/-- Claim C9: Per-user isolation of mutating ledger operations: both the
`UPDATE` and the `DELETE` statements carry a `user_id = ?` guard in addition
to `rowid = ?`, so `update_transaction` and `delete_transaction` called with
user `A` leave every row of any other user `B` unchanged. -/
theorem c9_per_user_isolation (db : TransTable) (A B i : Nat) (d t c : String) (a : ℚ)
    (n : String) (hAB : A ≠ B) :
    load_transactions (update_transaction db A i d t c a n) B = load_transactions db B ∧
    load_transactions (delete_transaction db A i) B = load_transactions db B := by
  have hBA : ∀ r : TransRow, (r.user_id == B) = true → (r.user_id == A) = false := by
    intro r hr
    simp only [beq_iff_eq] at hr
    simp only [hr, beq_eq_false_iff_ne, ne_eq]
    exact fun h => hAB h.symm
  constructor
  · unfold load_transactions update_transaction
    rw [List.filter_map]
    have hcomp : ((fun r : TransRow => r.user_id == B) ∘ fun r : TransRow =>
        if r.user_id == A && r.rowid == i + 1 then
          { r with date := d, ttype := t, category := c, amount := a, notes := n }
        else r) = fun r : TransRow => r.user_id == B := by
      funext r
      by_cases hc : (r.user_id == A && r.rowid == i + 1) = true
      · simp only [Function.comp_apply, if_pos hc]
      · simp only [Function.comp_apply, if_neg hc]
    rw [hcomp]
    have hid : ∀ r ∈ db.filter (fun r : TransRow => r.user_id == B),
        (if r.user_id == A && r.rowid == i + 1 then
          ({ r with date := d, ttype := t, category := c, amount := a, notes := n } : TransRow)
        else r) = r := by
      intro r hr
      have hB := List.of_mem_filter hr
      rw [if_neg]
      simp [hBA r hB]
    conv_rhs => rw [show db.filter (fun r : TransRow => r.user_id == B)
      = (db.filter (fun r : TransRow => r.user_id == B)).map id from
        (List.map_id _).symm]
    exact List.map_congr_left hid
  · unfold load_transactions delete_transaction
    rw [List.filter_filter]
    refine List.filter_congr ?_
    intro r _
    by_cases hB : (r.user_id == B) = true
    · simp [hB, hBA r hB]
    · simp only [Bool.not_eq_true] at hB
      simp [hB]

/-- Witness for C9: user 1's update and delete leave user 2's rows intact
on the concrete interleaved store. -/
theorem c9_per_user_isolation_witness :
    load_transactions (update_transaction c3db 1 0 "2024-02-09" "Income" "Salary" 99 "n") 2 =
      load_transactions c3db 2 ∧
    load_transactions (delete_transaction c3db 1 0) 2 = load_transactions c3db 2 :=
  c9_per_user_isolation c3db 1 2 0 "2024-02-09" "Income" "Salary" 99 "n" (by decide)

/-- The transaction set of claim C6, with rowids 1-3 for one user;
dates, categories and notes are arbitrary. -/
def c6rows (u : Nat) (d1 d2 d3 c1 c2 c3 n1 n2 n3 : String) : List TransRow :=
  [⟨1, u, d1, "Income", c1, 1000, n1⟩,
   ⟨2, u, d2, "Expense", c2, 400, n2⟩,
   ⟨3, u, d3, "Expense", c3, 100, n3⟩]

/-- Claim C6: On the transaction set `[(Income,1000),(Expense,400),(Expense,100)]`
the reporting view yields income total 1000, expense total 500, net savings
500, and a per-category expense breakdown whose values sum to 500; on an
empty transaction set all totals are zero. -/
theorem c6_reporting_totals (u : Nat) (d1 d2 d3 c1 c2 c3 n1 n2 n3 : String) :
    income_total (c6rows u d1 d2 d3 c1 c2 c3 n1 n2 n3) = 1000 ∧
    expense_total (c6rows u d1 d2 d3 c1 c2 c3 n1 n2 n3) = 500 ∧
    net_savings (c6rows u d1 d2 d3 c1 c2 c3 n1 n2 n3) = 500 ∧
    ((category_summary (c6rows u d1 d2 d3 c1 c2 c3 n1 n2 n3)).map Prod.snd).sum = 500 ∧
    income_total [] = 0 ∧ expense_total [] = 0 ∧ net_savings [] = 0 := by
  have hei : (("Expense" : String) == "Income") = false := by decide
  have hie : (("Income" : String) == "Expense") = false := by decide
  refine ⟨?_, ?_, ?_, ?_, rfl, rfl, by norm_num [net_savings, income_total, expense_total]⟩
  · norm_num [income_total, c6rows, hei]
  · norm_num [expense_total, c6rows, hie]
  · norm_num [net_savings, income_total, expense_total, c6rows, hei, hie]
  · by_cases hc : c2 = c3
    · subst hc
      norm_num [category_summary, c6rows, distinctKeys, hie]
    · have h32 : (c3 == c2) = false := beq_eq_false_iff_ne.mpr (Ne.symm hc)
      have h23 : (c2 == c3) = false := beq_eq_false_iff_ne.mpr hc
      norm_num [category_summary, c6rows, distinctKeys, hie, hc, h32, h23]

/-- Claim C5: `check_user` returns the user id of a stored `(username, digest)`
row matching the supplied credentials; if no row carries the username, or no
row with the username carries the digest of the supplied password, it returns
`None` — the same result in both failure cases, so a caller cannot tell an
unknown username from a wrong password.  (A wrong password whose SHA-256
digest collided with the stored one would match; the third conjunct states
the digest-level fact the lookup actually implements.) -/
theorem c5_authenticate (db : UsersTable) (u p bad : String) :
    ((∃ id, UserRow.mk u (hash_password p) id ∈ db) →
      ∃ id, check_user db u p = some id ∧ UserRow.mk u (hash_password p) id ∈ db) ∧
    ((∀ r ∈ db, r.username ≠ u) → check_user db u p = none) ∧
    ((∀ r ∈ db, r.username = u → r.password ≠ hash_password bad) →
      check_user db u bad = none) := by
  refine ⟨?_, ?_, ?_⟩
  · rintro ⟨id, hmem⟩
    have hsome : (db.find? fun r => r.username == u && r.password == hash_password p).isSome := by
      rw [List.find?_isSome]
      exact ⟨_, hmem, by simp⟩
    obtain ⟨r0, hr0⟩ := Option.isSome_iff_exists.mp hsome
    have hpred := List.find?_some hr0
    simp only [Bool.and_eq_true, beq_iff_eq] at hpred
    have hmem0 := List.mem_of_find?_eq_some hr0
    refine ⟨r0.user_id, ?_, ?_⟩
    · simp [check_user, hr0]
    · have heq : UserRow.mk u (hash_password p) r0.user_id = r0 := by
        cases r0
        simp_all
      rw [heq]
      exact hmem0
  · intro h
    simp only [check_user]
    rw [List.find?_eq_none.mpr]
    · rfl
    · intro r hr
      simp [h r hr]
  · intro h
    simp only [check_user]
    rw [List.find?_eq_none.mpr]
    · rfl
    · intro r hr
      by_cases hu : r.username = u
      · simp [hu, h r hr hu]
      · simp [hu]

/-- Concrete credential store for the C5 witness: the result of registering
`("alice", "pw")` on a fresh store. -/
def db0 : UsersTable := (register_user [] "alice" "pw").1

set_option maxRecDepth 200000 in
/-- Witness for C5: on the concrete store, correct credentials return
user id 1; an unknown username and a wrong password both return `none`. -/
theorem c5_authenticate_witness :
    (∃ id, check_user db0 "alice" "pw" = some id ∧
      UserRow.mk "alice" (hash_password "pw") id ∈ db0) ∧
    check_user db0 "bob" "pw" = none ∧
    check_user db0 "alice" "bad" = none := by
  refine ⟨(c5_authenticate db0 "alice" "pw" "bad").1 ⟨1, ?_⟩,
          (c5_authenticate db0 "bob" "pw" "bad").2.1 ?_,
          (c5_authenticate db0 "alice" "pw" "bad").2.2 ?_⟩
  · simp [db0, register_user]
  · intro r hr
    simp only [db0, register_user, List.nil_append, List.mem_singleton] at hr
    subst hr
    decide
  · intro r hr _
    simp only [db0, register_user, List.nil_append, List.mem_singleton] at hr
    subst hr
    show hash_password "pw" ≠ hash_password "bad"
    decide

/-- Each byte contributes exactly two hex characters. -/
theorem length_flatMap_byteHex (l : List Nat) : (l.flatMap byteHex).length = 2 * l.length := by
  induction l with
  | nil => rfl
  | cons b bs ih =>
      simp only [List.flatMap_cons, List.length_append, ih, byteHex, List.length_cons,
        List.length_nil]
      omega

/-- A SHA-256 digest is 32 bytes. -/
theorem sha256Bytes_length (m : List Nat) : (sha256Bytes m).length = 32 := by
  simp [sha256Bytes, wordBytes]

/-- The function `hash_password` always yields 64 characters. -/
theorem hash_password_length (p : String) : (hash_password p).length = 64 := by
  show ((sha256Bytes (utf8Bytes p)).flatMap byteHex).length = 64
  rw [length_flatMap_byteHex, sha256Bytes_length]

/-- The function `hexDigitChar` only produces hex digit characters. -/
theorem hexDigitChar_mem (n : Nat) : hexDigitChar n ∈ hexDigits := by
  rcases lt_or_ge n 16 with h | h
  · have hb : ∀ m < 16, hexDigitChar m ∈ hexDigits := by decide
    exact hb n h
  · unfold hexDigitChar
    rw [List.getD_eq_default]
    · decide
    · simpa [hexDigits] using h

/-- Every character of a `hash_password` output is a lowercase hex digit. -/
theorem hash_password_chars (p : String) : ∀ ch ∈ (hash_password p).data, ch ∈ hexDigits := by
  intro ch hch
  have hm : ch ∈ (sha256Bytes (utf8Bytes p)).flatMap byteHex := hch
  rw [List.mem_flatMap] at hm
  obtain ⟨b, _, hb⟩ := hm
  simp only [byteHex, List.mem_cons, List.not_mem_nil, or_false] at hb
  rcases hb with hb | hb <;> rw [hb] <;> exact hexDigitChar_mem _

/-- Every row ever inserted by `register_user` stores the digest of the
submitted password (or was already in the store). -/
theorem registerAll_rows (creds : List (String × String)) :
    ∀ db : UsersTable, ∀ r ∈ registerAll db creds,
      r ∈ db ∨ ∃ cred ∈ creds, r.username = cred.1 ∧ r.password = hash_password cred.2 := by
  induction creds with
  | nil => intro db r hr; exact Or.inl hr
  | cons c rest ih =>
      intro db r hr
      rcases c with ⟨cu, cp⟩
      rcases ih (register_user db cu cp).1 r hr with hin | hex
      · simp only [register_user, List.mem_append, List.mem_singleton] at hin
        rcases hin with h | h
        · exact Or.inl h
        · exact Or.inr ⟨(cu, cp), by simp, by rw [h], by rw [h]⟩
      · obtain ⟨cred, hcred, h1, h2⟩ := hex
        exact Or.inr ⟨cred, List.mem_cons_of_mem _ hcred, h1, h2⟩

/-- Claim C10: The credential store performs no input validation:
`register_user` accepts the empty username and empty password, storing the
digest of the empty password, and `check_user` with the same empty
credentials succeeds; every stored password field is the 64-character
lowercase-hex SHA-256 digest of the submitted password, never the
plaintext itself. -/
theorem c10_credential_store_invariants :
    (register_user [] "" "").2 = true ∧
    (register_user [] "" "").1 = [⟨"", hash_password "", 1⟩] ∧
    check_user (register_user [] "" "").1 "" "" = some 1 ∧
    (∀ p : String, (hash_password p).length = 64 ∧
      ∀ ch ∈ (hash_password p).data, ch ∈ hexDigits) ∧
    (∀ (creds : List (String × String)) (r : UserRow), r ∈ registerAll [] creds →
      ∃ cred ∈ creds, r.username = cred.1 ∧ r.password = hash_password cred.2) := by
  refine ⟨rfl, rfl, ?_, fun p => ⟨hash_password_length p, hash_password_chars p⟩, ?_⟩
  · simp [check_user, register_user]
  · intro creds r hr
    rcases registerAll_rows creds [] r hr with h | h
    · cases h
    · exact h

/-- Witness for C10's quantified conjunct at a concrete one-registration run. -/
theorem c10_credential_store_invariants_witness :
    ∃ cred ∈ [("u1", "p1")], (UserRow.mk "u1" (hash_password "p1") 1).username = cred.1 ∧
      (UserRow.mk "u1" (hash_password "p1") 1).password = hash_password cred.2 :=
  c10_credential_store_invariants.2.2.2.2 [("u1", "p1")] _
    (by simp [registerAll, register_user])

end Finora
